import Mathlib

set_option autoImplicit false

namespace Dhraviq

/-! Shallow embedding of `src/agentic_ai_backend.py` (the Dhraviq agentic
backend).  External collaborators — the Gemini generation backend, the
Firestore document store and the Pushover notification sink — are modelled
as explicit behaviour parameters (`GenResult`, the boolean outcome fields of
`World` and `HealthWorld`), and the side effects the orchestrator performs
against them are recorded in an explicit event trace. -/

/-- Sampling configuration passed to the generation backend
(the `generation_config` dict at the `generate_content` call site). -/
structure GenerationConfig where
  temperature : ℚ
  top_p : ℚ
  max_output_tokens : Nat
  deriving Repr, DecidableEq

/-- The sampling configuration hard-coded in `process_agent_response`:
temperature 0.3, top_p 0.95, max_output_tokens 2048. -/
def defaultConfig : GenerationConfig :=
  { temperature := (0.3 : ℚ), top_p := (0.95 : ℚ), max_output_tokens := 2048 }

/-- One call to the generation backend as observable at the call site: the
prompt, the sampling configuration and the request timeout passed along.
The source passes no timeout option to `generate_content`, which is
modelled as `timeout = none`. -/
structure GenCall where
  prompt : String
  config : GenerationConfig
  timeout : Option Nat
  deriving Repr, DecidableEq

/-- Behaviour of one generation-backend call: the returned response has
text `t` (`ok t`), the returned response has no text so that accessing
`response.text` raises (`noText`), or `generate_content` itself raises
(`exn`). -/
inductive GenResult where
  | ok (t : String)
  | noText
  | exn
  deriving Repr, DecidableEq

/-- Opaque Python exception; the embedded handlers never inspect it. -/
inductive PyExn where
  | exn
  deriving Repr, DecidableEq

/-- An agent specialization entry (`AGENT_SPECIALIZATIONS` values). -/
structure Specialization where
  name : String
  focus : String
  technical : String
  deriving Repr, DecidableEq

/-- The static `AGENT_SPECIALIZATIONS` dict, as a lookup by agent id. -/
def AGENT_SPECIALIZATIONS (agent : String) : Option Specialization :=
  if agent = "GoalClarifier" then some
    { name := "Goal Clarifier"
    , focus := "Helps users define clear, structured, and meaningful SMART goals aligned with their personal or professional direction."
    , technical := "Breaks down vague ambitions into specific, measurable, achievable, relevant, and time-bound components using proven goal-setting methodologies." }
  else if agent = "SkillMap" then some
    { name := "Skill Map"
    , focus := "Assists users in identifying essential skills required to achieve their goals or succeed in a specific field."
    , technical := "Maps out skill gaps and recommends personalized learning paths including online courses, books, certifications, and project-based practices." }
  else if agent = "TimelineWizard" then some
    { name := "Timeline Wizard"
    , focus := "Helps users plan realistic and efficient timelines for reaching their defined objectives."
    , technical := "Structures work into milestones, sprints, or phases using backward planning, time-blocking, and Gantt-based strategies with buffer and review points." }
  else if agent = "ProgressCoach" then some
    { name := "Progress Coach"
    , focus := "Guides users in tracking progress, overcoming stagnation, and sustaining consistent execution over time."
    , technical := "Uses behavior tracking, review loops, accountability systems, and adaptive iteration frameworks to maintain focus and course-correct effectively." }
  else if agent = "MindsetMentor" then some
    { name := "Mindset Mentor"
    , focus := "Supports users in building a growth-oriented, resilient, and disciplined mental framework aligned with long-term success."
    , technical := "Applies cognitive-behavioral tools, habit-loop analysis, identity-shift models, and self-reflection techniques to strengthen motivation and mental clarity." }
  else none

/-- The generic specialization synthesized by `.get(agent, {...})` for an
unknown agent id. -/
def defaultSpecialization (agent : String) : Specialization :=
  { name := agent, focus := "General guidance", technical := "Provide thoughtful advice" }

/-- The role-constrained prompt string built inside `process_agent_response`. -/
def buildPrompt (s : Specialization) (question : String) : String :=
  "You are an expert agent named " ++ s.name ++ ".\n" ++
  "Your role is to help users with the following specialization:\n" ++
  s.focus ++ "\n\n" ++
  "Technical expertise: " ++ s.technical ++ "\n\n" ++
  "User Input: \"" ++ question.trim ++ "\"\n\n" ++
  "Instructions:\n" ++
  "- If the user input is a casual greeting (like \x27hi\x27, \x27hello\x27, \x27hey\x27), reply with a short, formal one-line introduction stating your field of expertise.\n" ++
  "- If the user input is a topic-specific question related to your domain, give a detailed, insightful, and structured answer.\n" ++
  "- Focus strictly on your assigned specialization. Do not generalize or go beyond your expertise.\n" ++
  "- Use markdown formatting to enhance clarity:\n" ++
  "  • Use **bold** for important keywords or subheadings\n" ++
  "  • Use numbered steps or bullet points for methods, frameworks, or strategies\n" ++
  "  • Include relevant tools, techniques, or frameworks from your field\n" ++
  "- Never ask the user to rephrase their input. Respond constructively and helpfully regardless of input quality.\n" ++
  "- Maintain a professional, concise, and informative tone. Avoid casual or motivational language unless the context requires it.\n\n" ++
  "Your Response:"

/-- Outcome of one agent invocation (the dict returned by
`process_agent_response`). -/
structure AgentOutcome where
  agent : String
  response : String
  isTechnical : Bool
  deriving Repr, DecidableEq

/-- Fallback text returned when the Gemini model was never initialized. -/
def modelMissingMsg (agent : String) : String :=
  "⚠️ " ++ agent ++ " is currently unavailable because the AI model could not be loaded. Please try again later."

/-- Fallback text returned by the catch-all handler of
`process_agent_response`. -/
def issuesMsg (agent : String) : String :=
  "⚠️ " ++ agent ++ " is currently experiencing issues. Please try again later."

/-- The `try:` body of `process_agent_response`: resolve the
specialization, build the prompt, call the generation backend once, and
extract `response.text`.  `b k` is the backend behaviour for the k-th
attempt the invoker would make; the body consumes attempt 0 only.  The
second component records the backend calls actually made. -/
def process_agent_try (b : Nat → GenResult) (agent question : String) :
    Except PyExn AgentOutcome × List GenCall :=
  let s := (AGENT_SPECIALIZATIONS agent).getD (defaultSpecialization agent)
  let call : GenCall := { prompt := buildPrompt s question, config := defaultConfig, timeout := none }
  match b 0 with
  | .ok t => (Except.ok { agent := agent, response := t, isTechnical := true }, [call])
  | .noText => (Except.error PyExn.exn, [call])
  | .exn => (Except.error PyExn.exn, [call])

/-- `process_agent_response(agent, question)`: the early return when the
model is uninitialized, then the `try` body with its catch-all
`except Exception` handler converting any failure into a fallback
outcome.  `modelInit` embeds `gemini_model is not None`. -/
def process_agent_response (modelInit : Bool) (b : Nat → GenResult)
    (agent question : String) : AgentOutcome × List GenCall :=
  if modelInit = false then
    ({ agent := agent, response := modelMissingMsg agent, isTechnical := false }, [])
  else
    match process_agent_try b agent question with
    | (Except.ok o, cs) => (o, cs)
    | (Except.error _, cs) =>
      ({ agent := agent, response := issuesMsg agent, isTechnical := false }, cs)

/-! Python-dict model.  The responses map is built by the dict
comprehension `{r["agent"]: r["response"] for r in results}`: insertion
order preserved, a repeated key updates the existing entry in place
(last write wins). -/

/-- First-match lookup in an insertion-ordered association list. -/
def dictGet : List (String × String) → String → Option String
  | [], _ => none
  | p :: d, k => if p.1 = k then some p.2 else dictGet d k

/-- Python-dict insertion: update the existing entry in place (keeping its
position), else append at the end. -/
def dictInsert : List (String × String) → String → String → List (String × String)
  | [], k, v => [(k, v)]
  | p :: d, k, v => if p.1 = k then (k, v) :: d else p :: dictInsert d k v

/-- Build a Python dict from a list of key-value pairs in order. -/
def dictOfList (l : List (String × String)) : List (String × String) :=
  l.foldl (fun d p => dictInsert d p.1 p.2) []

/-- The inbound request schema (`AgentRequest`).  `send_email` keeps its
`Optional[bool]` type; Python truthiness is applied where the source
tests it. -/
structure AgentRequest where
  userId : String
  question : String
  agents : List String
  email : Option String
  send_email : Option Bool
  deriving Repr, DecidableEq

/-- Python truthiness of an `Optional[bool]` (None and False are falsy). -/
def truthyBool (b : Option Bool) : Bool := b.getD false

/-- Python truthiness of an `Optional[str]` (None and the empty string are
falsy). -/
def truthyStr (s : Option String) : Bool :=
  match s with
  | none => false
  | some t => !(t = "")

/-- The keyword list and substring scan of `extract_tech_keywords`. -/
def tech_terms : List String :=
  ["python", "javascript", "react", "node", "django", "flask",
   "machine learning", "ai", "data science", "database",
   "frontend", "backend", "fullstack", "devops", "kubernetes", "docker",
   "aws", "azure", "google cloud", "gcp", "algorithms", "data structures"]

/-- Contiguous-substring search over character lists. -/
def strHasSub : List Char → List Char → Bool
  | needle, [] => needle.isEmpty
  | needle, c :: rest => needle.isPrefixOf (c :: rest) || strHasSub needle rest

/-- Character-wise lowercasing (Python `.lower()`, ASCII range). -/
def lowerChars (l : List Char) : List Char := l.map Char.toLower

/-- Python `term in text.lower()` substring test. -/
def strContains (text term : String) : Bool :=
  strHasSub term.data (lowerChars text.data)

/-- `extract_tech_keywords(text)`. -/
def extract_tech_keywords (text : String) : List String :=
  tech_terms.filter (fun term => strContains text term)

/-- The session document written to the `sessions` collection.  The
server-assigned `createdAt` timestamp carries no program-controlled data
and is omitted. -/
structure SessionData where
  userId : String
  question : String
  agents : List String
  responses : List (String × String)
  isTechnical : Bool
  technicalKeywords : List String
  deriving Repr, DecidableEq

/-- The reminder document merge-upserted into the `users` collection
(server-assigned `lastUpdated` omitted). -/
structure ReminderData where
  reminderEnabled : Bool
  reminderQuestion : String
  email : Option String
  deriving Repr, DecidableEq

/-- Externally visible side effects of one `run_agents` execution, in
program order.  `sessionWrite` is recorded only when the write succeeds;
`userUpsert` records the attempt together with whether it succeeded. -/
inductive Event where
  | genCall (agentIdx : Nat) (call : GenCall)
  | sessionWrite (data : SessionData)
  | userUpsert (data : ReminderData) (ok : Bool)
  | notifyTask (userId question : String) (email : Option String)
  deriving Repr, DecidableEq

/-- An `HTTPException` raised by the orchestrator. -/
structure HTTPExc where
  status_code : Nat
  detail : String
  deriving Repr, DecidableEq

/-- The JSON body returned by `run_agents` on the non-raising paths.
`sessionId = none` would model a JSON null; the source only ever returns
strings there. -/
structure RunResponse where
  status : String
  sessionId : Option String
  responses : List (String × String)
  message : Option String
  deriving Repr, DecidableEq

/-- Behaviour of the external collaborators during one `run_agents`
execution: whether the Firestore client and Gemini model initialized at
startup, the generation backend behaviour (`gen i k` is the result of
attempt `k` by the invocation for agent index `i`), whether the session
write and the reminder upsert succeed, and the document id Firestore
assigns to the new session. -/
structure World where
  dbInit : Bool
  modelInit : Bool
  gen : Nat → Nat → GenResult
  sessionWriteOk : Bool
  newSessionId : String
  userUpsertOk : Bool

/-- The fan-out `[process_agent_response(agent, req.question) for agent in
req.agents]` joined by `asyncio.gather`: one invocation per entry, results
in list order, each invocation's backend calls recorded against its index. -/
def fanOut (modelInit : Bool) (gen : Nat → Nat → GenResult) (question : String) :
    Nat → List String → List AgentOutcome × List Event
  | _, [] => ([], [])
  | i, a :: rest =>
    let r := process_agent_response modelInit (gen i) a question
    let rec_ := fanOut modelInit gen question (i + 1) rest
    (r.1 :: rec_.1, r.2.map (Event.genCall i) ++ rec_.2)

/-- Body of `run_agents` past the dependency and agent-count guards:
parallel fan-out, session persistence with partial-success degradation,
optional reminder upsert plus detached notification task, and the final
response. -/
def run_agents_core (w : World) (req : AgentRequest) :
    Except HTTPExc RunResponse × List Event :=
    let fo := fanOut w.modelInit w.gen req.question 0 req.agents
    let results := fo.1
    let genEvents := fo.2
    let responses := dictOfList (results.map (fun r => (r.agent, r.response)))
    let sdata : SessionData :=
      { userId := req.userId
      , question := req.question
      , agents := req.agents
      , responses := responses
      , isTechnical := results.any (fun r => r.isTechnical)
      , technicalKeywords := extract_tech_keywords req.question }
    if w.sessionWriteOk = false then
      (Except.ok
        { status := "partial_success"
        , sessionId := some ("N/A")
        , responses := responses
        , message := some ("Responses generated, but failed to save session to database.") },
       genEvents)
    else
      let ev1 := genEvents ++ [Event.sessionWrite sdata]
      let okResp : RunResponse :=
        { status := "success"
        , sessionId := some w.newSessionId
        , responses := responses
        , message := none }
      if truthyBool req.send_email then
        let rdata : ReminderData :=
          { reminderEnabled := true
          , reminderQuestion := req.question.trim
          , email := if truthyStr req.email then req.email else none }
        if w.userUpsertOk then
          (Except.ok okResp,
           ev1 ++ [Event.userUpsert rdata true,
                   Event.notifyTask req.userId req.question req.email])
        else
          (Except.ok okResp, ev1 ++ [Event.userUpsert rdata false])
      else
        (Except.ok okResp, ev1)

/-- `run_agents(req)`: the dependency guards and the agent-count
validation in source order, then the main body (`run_agents_core`). -/
def run_agents (w : World) (req : AgentRequest) :
    Except HTTPExc RunResponse × List Event :=
  if w.dbInit = false then
    (Except.error { status_code := 503, detail := "Service Unavailable: Database connection failed during startup." }, [])
  else if w.modelInit = false then
    (Except.error { status_code := 503, detail := "Service Unavailable: AI model initialization failed during startup." }, [])
  else if 5 < req.agents.length then
    (Except.error { status_code := 400, detail := "Maximum 5 agents allowed" }, [])
  else
    run_agents_core w req

/-- Whether `run_agents` returned a JSON body rather than raising. -/
def runOk (x : Except HTTPExc RunResponse × List Event) : Bool :=
  match x.1 with
  | Except.ok _ => true
  | Except.error _ => false

/-- The `status` field of the returned body, when one was returned. -/
def runStatus (x : Except HTTPExc RunResponse × List Event) : Option String :=
  match x.1 with
  | Except.ok r => some r.status
  | Except.error _ => none

/-- The `sessionId` field of the returned body, when one was returned. -/
def runSessionId (x : Except HTTPExc RunResponse × List Event) : Option (Option String) :=
  match x.1 with
  | Except.ok r => some r.sessionId
  | Except.error _ => none

/-- The `responses` field of the returned body, when one was returned. -/
def runResponses (x : Except HTTPExc RunResponse × List Event) : Option (List (String × String)) :=
  match x.1 with
  | Except.ok r => some r.responses
  | Except.error _ => none

/-! Health aggregator (`health_check` plus `send_pushover_notification`). -/

/-- `send_pushover_notification`: returns False when the Pushover
credentials were never configured, and otherwise reports whether the HTTP
POST completed with a 2xx status (every exception path returns False). -/
def send_pushover_notification (credsSet postOk : Bool) : Bool :=
  if credsSet = false then false else postOk

/-- Behaviour of the external services during one `health_check` run:
Firestore/Gemini initialization state, whether the probe write, read-back
and minimal completion raise (with the exception message used in the
status string), the read-back existence flag, the probe completion text,
and the notification-sink outcome. -/
structure HealthWorld where
  dbInit : Bool
  fsSetExn : Option String
  fsGetExn : Option String
  fsDocExists : Bool
  modelInit : Bool
  genProbe : GenResult
  genExnMsg : String
  pushoverCreds : Bool
  pushoverPostOk : Bool

/-- The Firestore probe of `health_check`: trivial write, read-back,
exception-to-status conversion. -/
def firestore_probe (h : HealthWorld) : String :=
  if h.dbInit = false then "initialization_failed"
  else
    match h.fsSetExn with
    | some m => "error: " ++ m
    | none =>
      match h.fsGetExn with
      | some m => "error: " ++ m
      | none => if h.fsDocExists then "connected" else "doc_not_found_after_write"

/-- The Gemini probe of `health_check`: minimal completion request,
truthiness test on the returned text, exception-to-status conversion. -/
def gemini_probe (h : HealthWorld) : String :=
  if h.modelInit = false then "initialization_failed"
  else
    match h.genProbe with
    | GenResult.ok t => if t = "" then "no_response" else "available"
    | GenResult.noText => "error: " ++ h.genExnMsg
    | GenResult.exn => "error: " ++ h.genExnMsg

/-- The notification probe of `health_check`: one real send attempt. -/
def pushover_probe (h : HealthWorld) : String :=
  if send_pushover_notification h.pushoverCreds h.pushoverPostOk then "connected"
  else "unavailable"

/-- The health report body (wall-clock `timestamp` omitted). -/
structure HealthReport where
  status : String
  firestore : String
  gemini : String
  pushover : String
  deriving Repr, DecidableEq

/-- `health_check()`: run the three probes and fold them into the overall
status, starting from `healthy` and demoting to `unhealthy` when any
probe missed its success state. -/
def health_check (h : HealthWorld) : HealthReport :=
  let fs := firestore_probe h
  let gm := gemini_probe h
  let po := pushover_probe h
  { status :=
      if fs ≠ "connected" ∨ gm ≠ "available" ∨ po ≠ "connected" then "unhealthy"
      else "healthy"
  , firestore := fs
  , gemini := gm
  , pushover := po }

/-! Helper lemmas about the invoker, the fan-out, the dict model and the
orchestrator. -/

theorem process_agent_response_agent (m : Bool) (b : Nat → GenResult) (a q : String) :
    (process_agent_response m b a q).1.agent = a := by
  cases m <;> rcases hb : b 0 with t | _ | _ <;>
    simp [process_agent_response, process_agent_try, hb]

theorem fanOut_fst_map_agent (m : Bool) (g : Nat → Nat → GenResult) (q : String) :
    ∀ (l : List String) (i : Nat), ((fanOut m g q i l).1.map (fun r => r.agent)) = l := by
  intro l
  induction l with
  | nil => intro i; rfl
  | cons a rest ih =>
    intro i
    simp [fanOut, process_agent_response_agent, ih]

theorem fanOut_fst_append (m : Bool) (g : Nat → Nat → GenResult) (q : String) :
    ∀ (l₁ l₂ : List String) (i : Nat),
      (fanOut m g q i (l₁ ++ l₂)).1 =
        (fanOut m g q i l₁).1 ++ (fanOut m g q (i + l₁.length) l₂).1 := by
  intro l₁
  induction l₁ with
  | nil => intro l₂ i; simp [fanOut]
  | cons a rest ih =>
    intro l₂ i
    simp [fanOut, ih]
    have harith : i + 1 + rest.length = i + (rest.length + 1) := by omega
    rw [harith]

theorem fanOut_events_genCall (m : Bool) (g : Nat → Nat → GenResult) (q : String) :
    ∀ (l : List String) (i : Nat) (e : Event),
      e ∈ (fanOut m g q i l).2 → ∃ j c, e = Event.genCall j c := by
  intro l
  induction l with
  | nil => intro i e h; simp [fanOut] at h
  | cons a rest ih =>
    intro i e h
    simp [fanOut] at h
    rcases h with ⟨c, _, rfl⟩ | h
    · exact ⟨i, c, rfl⟩
    · exact ih _ _ h

theorem dictGet_insert_self (d : List (String × String)) (k v : String) :
    dictGet (dictInsert d k v) k = some v := by
  induction d with
  | nil => simp [dictInsert, dictGet]
  | cons p d ih =>
    by_cases hp : p.1 = k
    · simp [dictInsert, dictGet, hp]
    · simp [dictInsert, dictGet, hp, ih]

theorem dictGet_insert_ne (d : List (String × String)) (k' v k : String) (h : k' ≠ k) :
    dictGet (dictInsert d k' v) k = dictGet d k := by
  induction d with
  | nil => simp [dictInsert, dictGet, h]
  | cons p d ih =>
    by_cases hp : p.1 = k'
    · have h1 : dictInsert (p :: d) k' v = (k', v) :: d := by
        simp [dictInsert, hp]
      have hpk : ¬ p.1 = k := by rw [hp]; exact h
      rw [h1]
      simp [dictGet, h, hpk]
    · have h1 : dictInsert (p :: d) k' v = p :: dictInsert d k' v := by
        simp [dictInsert, hp]
      rw [h1]
      by_cases hk : p.1 = k
      · simp [dictGet, hk]
      · simp [dictGet, hk, ih]

theorem isSome_dictGet_insert (d : List (String × String)) (k' v k : String) :
    (dictGet (dictInsert d k' v) k).isSome = true ↔
      k = k' ∨ (dictGet d k).isSome = true := by
  by_cases h : k' = k
  · subst h
    simp [dictGet_insert_self]
  · rw [dictGet_insert_ne d k' v k h]
    have hne : ¬ (k = k') := fun hk => h hk.symm
    simp [hne]

theorem isSome_dictGet_foldl (k : String) :
    ∀ (l : List (String × String)) (d : List (String × String)),
      (dictGet (l.foldl (fun d p => dictInsert d p.1 p.2) d) k).isSome = true ↔
        k ∈ l.map Prod.fst ∨ (dictGet d k).isSome = true := by
  intro l
  induction l with
  | nil => intro d; simp
  | cons p l ih =>
    intro d
    simp only [List.foldl_cons, List.map_cons, List.mem_cons]
    rw [ih, isSome_dictGet_insert]
    tauto

theorem isSome_dictGet_dictOfList (l : List (String × String)) (k : String) :
    (dictGet (dictOfList l) k).isSome = true ↔ k ∈ l.map Prod.fst := by
  unfold dictOfList
  rw [isSome_dictGet_foldl]
  simp [dictGet]

theorem dictGet_foldl_no_key (k : String) :
    ∀ (l : List (String × String)) (d : List (String × String)),
      k ∉ l.map Prod.fst →
      dictGet (l.foldl (fun d p => dictInsert d p.1 p.2) d) k = dictGet d k := by
  intro l
  induction l with
  | nil => intro d _; rfl
  | cons p l ih =>
    intro d h
    simp only [List.map_cons, List.mem_cons] at h
    push_neg at h
    simp only [List.foldl_cons]
    rw [ih _ h.2, dictGet_insert_ne _ _ _ _ (fun he => h.1 he.symm)]

theorem dictGet_dictOfList_last (P₁ P₂ : List (String × String)) (k v : String)
    (h : k ∉ P₂.map Prod.fst) :
    dictGet (dictOfList (P₁ ++ (k, v) :: P₂)) k = some v := by
  unfold dictOfList
  rw [List.foldl_append, List.foldl_cons, dictGet_foldl_no_key k P₂ _ h,
    dictGet_insert_self]

theorem run_agents_eq_core (w : World) (req : AgentRequest)
    (h1 : w.dbInit = true) (h2 : w.modelInit = true) (h3 : req.agents.length ≤ 5) :
    run_agents w req = run_agents_core w req := by
  simp [run_agents, h1, h2, Nat.not_lt.mpr h3]

/-- The joined fan-out outcomes of one `run_agents` execution. -/
def coreOutcomes (w : World) (req : AgentRequest) : List AgentOutcome :=
  (fanOut w.modelInit w.gen req.question 0 req.agents).1

/-- The generation-call events of one `run_agents` execution. -/
def coreGenEvents (w : World) (req : AgentRequest) : List Event :=
  (fanOut w.modelInit w.gen req.question 0 req.agents).2

/-- The responses map of one `run_agents` execution. -/
def coreResponses (w : World) (req : AgentRequest) : List (String × String) :=
  dictOfList ((coreOutcomes w req).map (fun r => (r.agent, r.response)))

/-- The session document of one `run_agents` execution. -/
def coreSData (w : World) (req : AgentRequest) : SessionData :=
  { userId := req.userId
  , question := req.question
  , agents := req.agents
  , responses := coreResponses w req
  , isTechnical := (coreOutcomes w req).any (fun r => r.isTechnical)
  , technicalKeywords := extract_tech_keywords req.question }

/-- The reminder document of one `run_agents` execution. -/
def coreRData (req : AgentRequest) : ReminderData :=
  { reminderEnabled := true
  , reminderQuestion := req.question.trim
  , email := if truthyStr req.email then req.email else none }

/-- The success body of one `run_agents` execution. -/
def coreOkResp (w : World) (req : AgentRequest) : RunResponse :=
  { status := "success"
  , sessionId := some w.newSessionId
  , responses := coreResponses w req
  , message := none }

theorem run_agents_core_write_fail (w : World) (req : AgentRequest)
    (hs : w.sessionWriteOk = false) :
    run_agents_core w req =
      (Except.ok
        { status := "partial_success"
        , sessionId := some ("N/A")
        , responses := coreResponses w req
        , message := some ("Responses generated, but failed to save session to database.") },
       coreGenEvents w req) := by
  simp [run_agents_core, hs, coreResponses, coreOutcomes, coreGenEvents]

theorem run_agents_core_no_reminder (w : World) (req : AgentRequest)
    (hs : w.sessionWriteOk = true) (he : truthyBool req.send_email = false) :
    run_agents_core w req =
      (Except.ok (coreOkResp w req),
       coreGenEvents w req ++ [Event.sessionWrite (coreSData w req)]) := by
  simp [run_agents_core, hs, he, coreOkResp, coreResponses, coreOutcomes,
    coreGenEvents, coreSData]

theorem run_agents_core_reminder_ok (w : World) (req : AgentRequest)
    (hs : w.sessionWriteOk = true) (he : truthyBool req.send_email = true)
    (hu : w.userUpsertOk = true) :
    run_agents_core w req =
      (Except.ok (coreOkResp w req),
       (coreGenEvents w req ++ [Event.sessionWrite (coreSData w req)]) ++
         [Event.userUpsert (coreRData req) true,
          Event.notifyTask req.userId req.question req.email]) := by
  simp [run_agents_core, hs, he, hu, coreOkResp, coreResponses, coreOutcomes,
    coreGenEvents, coreSData, coreRData]

theorem run_agents_core_reminder_fail (w : World) (req : AgentRequest)
    (hs : w.sessionWriteOk = true) (he : truthyBool req.send_email = true)
    (hu : w.userUpsertOk = false) :
    run_agents_core w req =
      (Except.ok (coreOkResp w req),
       (coreGenEvents w req ++ [Event.sessionWrite (coreSData w req)]) ++
         [Event.userUpsert (coreRData req) false]) := by
  simp [run_agents_core, hs, he, hu, coreOkResp, coreResponses, coreOutcomes,
    coreGenEvents, coreSData, coreRData]

theorem sessionWriteOk_true_of_not_false (w : World) (hs : ¬ w.sessionWriteOk = false) :
    w.sessionWriteOk = true := by
  revert hs; cases hw : w.sessionWriteOk <;> simp

theorem runOk_run_agents_core (w : World) (req : AgentRequest) :
    runOk (run_agents_core w req) = true := by
  by_cases hs : w.sessionWriteOk = false
  · rw [run_agents_core_write_fail w req hs]; rfl
  · have hs' := sessionWriteOk_true_of_not_false w hs
    by_cases he : truthyBool req.send_email = true
    · by_cases hu : w.userUpsertOk = true
      · rw [run_agents_core_reminder_ok w req hs' he hu]; rfl
      · have hu' : w.userUpsertOk = false := by
          revert hu; cases hw : w.userUpsertOk <;> simp
        rw [run_agents_core_reminder_fail w req hs' he hu']; rfl
    · have he' : truthyBool req.send_email = false := by
        revert he; cases hw : truthyBool req.send_email <;> simp
      rw [run_agents_core_no_reminder w req hs' he']; rfl

theorem runResponses_run_agents_core (w : World) (req : AgentRequest) :
    runResponses (run_agents_core w req) = some (coreResponses w req) := by
  by_cases hs : w.sessionWriteOk = false
  · rw [run_agents_core_write_fail w req hs]; rfl
  · have hs' := sessionWriteOk_true_of_not_false w hs
    by_cases he : truthyBool req.send_email = true
    · by_cases hu : w.userUpsertOk = true
      · rw [run_agents_core_reminder_ok w req hs' he hu]; rfl
      · have hu' : w.userUpsertOk = false := by
          revert hu; cases hw : w.userUpsertOk <;> simp
        rw [run_agents_core_reminder_fail w req hs' he hu']; rfl
    · have he' : truthyBool req.send_email = false := by
        revert he; cases hw : truthyBool req.send_email <;> simp
      rw [run_agents_core_no_reminder w req hs' he']; rfl

theorem bool_eq_false_of_not_true (b : Bool) (h : ¬ b = true) : b = false := by
  cases b
  · rfl
  · exact absurd rfl h

theorem runSessionId_run_agents_core_success (w : World) (req : AgentRequest)
    (hs : w.sessionWriteOk = true) :
    runSessionId (run_agents_core w req) = some (some w.newSessionId) := by
  by_cases he : truthyBool req.send_email = true
  · by_cases hu : w.userUpsertOk = true
    · rw [run_agents_core_reminder_ok w req hs he hu]; rfl
    · rw [run_agents_core_reminder_fail w req hs he
        (bool_eq_false_of_not_true _ hu)]; rfl
  · rw [run_agents_core_no_reminder w req hs
      (bool_eq_false_of_not_true _ he)]; rfl

theorem run_agents_core_or_nil (w : World) (req : AgentRequest) :
    run_agents w req = run_agents_core w req ∨ (run_agents w req).2 = [] := by
  unfold run_agents
  by_cases h1 : w.dbInit = false
  · right; simp [h1]
  · by_cases h2 : w.modelInit = false
    · right; simp [h1, h2]
    · by_cases h3 : 5 < req.agents.length
      · right; simp [h1, h2, h3]
      · left; simp [h1, h2, h3]

theorem fanOut_cons (m : Bool) (g : Nat → Nat → GenResult) (q : String)
    (i : Nat) (a : String) (l : List String) :
    (fanOut m g q i (a :: l)).1 =
      (process_agent_response m (g i) a q).1 :: (fanOut m g q (i + 1) l).1 := rfl

/-! Concrete fixtures used by witnesses and counterexamples. -/

/-- A generation backend that answers the invocation for agent index `i`
with the text `r<i>` on every attempt. -/
def okGen : Nat → Nat → GenResult := fun i _ => GenResult.ok ("r" ++ toString i)

/-- A world with all collaborators initialized and succeeding. -/
def wOK : World :=
  { dbInit := true, modelInit := true, gen := okGen,
    sessionWriteOk := true, newSessionId := "sid1", userUpsertOk := true }

/-- A world where the session write fails. -/
def wNoStore : World := { wOK with sessionWriteOk := false }

/-- A world where the reminder upsert fails. -/
def wNoUpsert : World := { wOK with userUpsertOk := false }

/-- A two-agent request with reminders enabled. -/
def reqBase : AgentRequest :=
  { userId := "u1", question := "hi",
    agents := ["GoalClarifier", "MindsetMentor"],
    email := some ("a@b.c"), send_email := some true }

/-- A six-agent request (over the limit). -/
def req6 : AgentRequest :=
  { reqBase with agents := ["a1", "a2", "a3", "a4", "a5", "a6"] }

/-- A request with a duplicated agent id. -/
def reqDup : AgentRequest :=
  { reqBase with agents := ["GoalClarifier", "SkillMap", "GoalClarifier"] }

/-- A request with an empty agents list. -/
def reqEmpty : AgentRequest := { reqBase with agents := [] }

/-- A backend behaviour whose first attempt raises a transient failure and
whose second attempt would succeed. -/
def transientThenOk : Nat → GenResult :=
  fun k => if k = 0 then GenResult.exn else GenResult.ok ("recovered")

/-- Probe behaviour: document store and generation backend healthy, the
notification sink failing. -/
def hwNoNotify : HealthWorld :=
  { dbInit := true, fsSetExn := none, fsGetExn := none, fsDocExists := true,
    modelInit := true, genProbe := GenResult.ok ("pong"), genExnMsg := "m1",
    pushoverCreds := true, pushoverPostOk := false }

/-- Same probe outcomes as `hwNoNotify` with a different (unused)
exception message. -/
def hwNoNotify2 : HealthWorld := { hwNoNotify with genExnMsg := "m2" }

/-! Claim theorems. -/

/-- C1, counterexample: with a backend whose first attempt raises a
transient failure and whose second attempt would succeed, the agent
invocation makes exactly one backend call, that call carries no request
timeout (rather than one of 12-15 time units), and the invocation
returns the fallback outcome instead of retrying — refuting the claimed
3-attempt exponential-backoff retry policy. -/
theorem c1_counterexample :
    (process_agent_response true transientThenOk ("GoalClarifier") ("hi")).2 =
      [{ prompt := buildPrompt
           ((AGENT_SPECIALIZATIONS ("GoalClarifier")).getD
             (defaultSpecialization ("GoalClarifier"))) "hi"
       , config := defaultConfig
       , timeout := none }] ∧
    transientThenOk 1 = GenResult.ok ("recovered") ∧
    (process_agent_response true transientThenOk ("GoalClarifier") ("hi")).1 =
      { agent := "GoalClarifier"
      , response := issuesMsg ("GoalClarifier")
      , isTechnical := false } :=
  ⟨rfl, rfl, rfl⟩

/-- C1, amended: every agent invocation with the model initialized makes
exactly one generation-backend call, with the fixed sampling
configuration (temperature 0.3, top_p 0.95, max_output_tokens 2048) and
no request timeout; no retry is ever performed, and with the model
uninitialized no backend call is made at all. -/
theorem c1_single_attempt_fixed_config (b : Nat → GenResult) (a q : String) :
    (process_agent_response true b a q).2.length = 1 ∧
    ((process_agent_response true b a q).2.map (fun c => (c.config, c.timeout))) =
      [(defaultConfig, (none : Option Nat))] ∧
    (process_agent_response false b a q).2 = [] := by
  rcases hb : b 0 with t | _ | _ <;>
    simp [process_agent_response, process_agent_try, hb]

/-- C2: with both startup dependencies initialized, a request with more
than 5 agents is rejected with HTTP 400 and detail "Maximum 5 agents
allowed", and the event trace is empty: no generation-backend call is
made and no session is written. -/
theorem c2_reject_over_five (w : World) (req : AgentRequest)
    (h1 : w.dbInit = true) (h2 : w.modelInit = true)
    (h3 : 5 < req.agents.length) :
    run_agents w req =
      (Except.error { status_code := 400, detail := "Maximum 5 agents allowed" }, []) := by
  simp [run_agents, h1, h2, h3]

/-- C2 witness: the rejection at a concrete six-agent request. -/
theorem c2_reject_over_five_witness :
    run_agents wOK req6 =
      (Except.error { status_code := 400, detail := "Maximum 5 agents allowed" }, []) :=
  c2_reject_over_five wOK req6 rfl rfl (by decide)

/-- C6, counterexample: on a backend exception the returned fallback text
is "⚠️ GoalClarifier is currently experiencing issues. Please try again
later.", not the claimed sentinel "GoalClarifier is currently
unavailable, try again later". -/
theorem c6_counterexample :
    (process_agent_response true (fun _ => GenResult.exn) "GoalClarifier" "hi").1.response ≠
      "GoalClarifier is currently unavailable, try again later" ∧
    (process_agent_response true (fun _ => GenResult.exn) "GoalClarifier" "hi").1 =
      { agent := "GoalClarifier"
      , response := "⚠️ GoalClarifier is currently experiencing issues. Please try again later."
      , isTechnical := false } :=
  ⟨by decide, by decide⟩

/-- C6, amended: when the backend call raises or the response has no
text, the outcome is "⚠️ <agent> is currently experiencing issues. Please
try again later." with isTechnical = false; when the model was never
initialized, the outcome is "⚠️ <agent> is currently unavailable because
the AI model could not be loaded. Please try again later." with
isTechnical = false. -/
theorem c6_fallback_messages (b : Nat → GenResult) (a q : String) :
    ((b 0 = GenResult.exn ∨ b 0 = GenResult.noText) →
      (process_agent_response true b a q).1 =
        { agent := a, response := issuesMsg a, isTechnical := false }) ∧
    (process_agent_response false b a q).1 =
      { agent := a, response := modelMissingMsg a, isTechnical := false } := by
  constructor
  · intro h
    rcases h with h | h <;> simp [process_agent_response, process_agent_try, h]
  · rfl

/-- C6 witness: the amended fallback at a concrete missing-text failure. -/
theorem c6_fallback_messages_witness :
    (process_agent_response true (fun _ => GenResult.noText) "SkillMap" "q").1 =
      { agent := "SkillMap", response := issuesMsg ("SkillMap"), isTechnical := false } :=
  (c6_fallback_messages (fun _ => GenResult.noText) "SkillMap" "q").1 (Or.inr rfl)

/-- C7: the overall health status is healthy exactly when the Firestore
probe reports connected, the Gemini probe reports available and the
Pushover probe reports connected; any other combination yields
unhealthy; and the whole report is a deterministic function of the three
probe outcomes. -/
theorem c7_health_fold (h h' : HealthWorld) :
    ((health_check h).status = "healthy" ↔
      (firestore_probe h = "connected" ∧ gemini_probe h = "available" ∧
       pushover_probe h = "connected")) ∧
    (¬ (firestore_probe h = "connected" ∧ gemini_probe h = "available" ∧
        pushover_probe h = "connected") →
      (health_check h).status = "unhealthy") ∧
    (firestore_probe h = firestore_probe h' → gemini_probe h = gemini_probe h' →
      pushover_probe h = pushover_probe h' → health_check h = health_check h') := by
  refine ⟨?_, ?_, ?_⟩
  · unfold health_check
    by_cases hc : firestore_probe h = "connected" ∧ gemini_probe h = "available" ∧
        pushover_probe h = "connected"
    · have hnot : ¬ (firestore_probe h ≠ "connected" ∨ gemini_probe h ≠ "available" ∨
          pushover_probe h ≠ "connected") := by tauto
      simp only [if_neg hnot]
      simp [hc]
    · have hyes : firestore_probe h ≠ "connected" ∨ gemini_probe h ≠ "available" ∨
          pushover_probe h ≠ "connected" := by tauto
      simp only [if_pos hyes]
      simp [hc]
  · intro hc
    unfold health_check
    have hyes : firestore_probe h ≠ "connected" ∨ gemini_probe h ≠ "available" ∨
        pushover_probe h ≠ "connected" := by tauto
    simp only [if_pos hyes]
  · intro e1 e2 e3
    unfold health_check
    rw [e1, e2, e3]

/-- C7 witness: with the notification probe failing and the other two
succeeding, the overall status is unhealthy, and the report is identical
across two worlds with the same probe outcomes. -/
theorem c7_health_fold_witness :
    (health_check hwNoNotify).status = "unhealthy" ∧
    health_check hwNoNotify = health_check hwNoNotify2 :=
  ⟨(c7_health_fold hwNoNotify hwNoNotify).2.1 (by decide),
   (c7_health_fold hwNoNotify hwNoNotify2).2.2 (by decide) (by decide) (by decide)⟩

/-- C3: a single agent invocation never raises to its caller — with the
model missing it returns the model-missing fallback outcome; when the try
body raises (backend exception or missing response text) it returns the
issues fallback outcome; both fallbacks carry isTechnical = false and the
requested agent id; and for any backend behaviours whatsoever the
orchestrator still returns a response body, so one agent's failure never
aborts the fan-out. -/
theorem c3_invoker_never_raises (m : Bool) (b : Nat → GenResult) (a q : String) :
    (process_agent_response m b a q).1.agent = a ∧
    (m = false → (process_agent_response m b a q).1 =
      { agent := a, response := modelMissingMsg a, isTechnical := false }) ∧
    (∀ e : PyExn, (process_agent_try b a q).1 = Except.error e →
      (process_agent_response true b a q).1 =
        { agent := a, response := issuesMsg a, isTechnical := false }) ∧
    (∀ (w : World) (req : AgentRequest), w.dbInit = true → w.modelInit = true →
      req.agents.length ≤ 5 → runOk (run_agents w req) = true) := by
  refine ⟨process_agent_response_agent m b a q, ?_, ?_, ?_⟩
  · intro hm
    subst hm
    rfl
  · intro e he
    rcases hb : b 0 with t | _ | _
    · simp [process_agent_try, hb] at he
    · simp [process_agent_response, process_agent_try, hb]
    · simp [process_agent_response, process_agent_try, hb]
  · intro w req h1 h2 h3
    rw [run_agents_eq_core w req h1 h2 h3]
    exact runOk_run_agents_core w req

/-- C3 witness: the three failure conversions and the orchestrator's
non-raising result at concrete inputs. -/
theorem c3_invoker_never_raises_witness :
    (process_agent_response false (fun _ => GenResult.noText) "G" "q").1 =
      { agent := "G", response := modelMissingMsg ("G"), isTechnical := false } ∧
    (process_agent_response true (fun _ => GenResult.noText) "G" "q").1 =
      { agent := "G", response := issuesMsg ("G"), isTechnical := false } ∧
    runOk (run_agents wOK reqBase) = true :=
  ⟨(c3_invoker_never_raises false (fun _ => GenResult.noText) "G" "q").2.1 rfl,
   (c3_invoker_never_raises true (fun _ => GenResult.noText) "G" "q").2.2.1
     PyExn.exn rfl,
   (c3_invoker_never_raises true (fun _ => GenResult.noText) "G" "q").2.2.2
     wOK reqBase rfl rfl (by decide)⟩

/-- C4, counterexample: when the session write fails, the returned body
carries the sentinel string "N/A" as sessionId, not null — refuting
"sessionId equal to null". -/
theorem c4_counterexample :
    (run_agents wNoStore reqBase).1 = Except.ok
      { status := "partial_success"
      , sessionId := some ("N/A")
      , responses := [("GoalClarifier", "r0"), ("MindsetMentor", "r1")]
      , message := some ("Responses generated, but failed to save session to database.") } ∧
    runSessionId (run_agents wNoStore reqBase) ≠ some ((none : Option String)) := by
  constructor
  · rfl
  · decide

/-- C4, amended: if the session write fails after the outcomes are
produced, the orchestrator returns the same responses map it would have
returned on successful persistence, with status partial_success and
sessionId equal to the sentinel string "N/A" (not null); the sentinel
appears only when persistence never occurred, and no session-write event
is emitted. -/
theorem c4_storage_fault_na (w : World) (req : AgentRequest)
    (h1 : w.dbInit = true) (h2 : w.modelInit = true)
    (h3 : req.agents.length ≤ 5) (hs : w.sessionWriteOk = false)
    (hid : w.newSessionId ≠ "N/A") :
    runStatus (run_agents w req) = some ("partial_success") ∧
    runSessionId (run_agents w req) = some (some ("N/A")) ∧
    runResponses (run_agents w req) =
      runResponses (run_agents { w with sessionWriteOk := true } req) ∧
    runSessionId (run_agents { w with sessionWriteOk := true } req) ≠
      some (some ("N/A")) ∧
    (∀ d : SessionData, ¬ Event.sessionWrite d ∈ (run_agents w req).2) := by
  rw [run_agents_eq_core w req h1 h2 h3,
    run_agents_eq_core { w with sessionWriteOk := true } req h1 h2 h3]
  rw [run_agents_core_write_fail w req hs]
  refine ⟨rfl, rfl, ?_, ?_, ?_⟩
  · rw [runResponses_run_agents_core]
    rfl
  · rw [runSessionId_run_agents_core_success { w with sessionWriteOk := true } req rfl]
    simp [hid]
  · intro d hd
    obtain ⟨j, c, hjc⟩ :=
      fanOut_events_genCall w.modelInit w.gen req.question req.agents 0 _ hd
    exact Event.noConfusion hjc

/-- C4 witness: the amended behaviour at a concrete failing-store run. -/
theorem c4_storage_fault_na_witness :
    runStatus (run_agents wNoStore reqBase) = some ("partial_success") ∧
    runResponses (run_agents wNoStore reqBase) =
      runResponses (run_agents { wNoStore with sessionWriteOk := true } reqBase) := by
  have h := c4_storage_fault_na wNoStore reqBase rfl rfl (by decide) rfl (by decide)
  exact ⟨h.1, h.2.2.1⟩

/-- C5: with dependencies initialized and at most 5 agents, the
orchestrator returns a body whose responses map has a key exactly for
each distinct requested agent id (no agent dropped, no extra keys), and
a duplicated id maps to the outcome of its last occurrence
(last-write-wins). -/
theorem c5_responses_complete_lww (w : World) (req : AgentRequest)
    (h1 : w.dbInit = true) (h2 : w.modelInit = true)
    (h3 : req.agents.length ≤ 5) :
    runOk (run_agents w req) = true ∧
    (∀ k : String,
      (dictGet ((runResponses (run_agents w req)).getD []) k).isSome = true ↔
        k ∈ req.agents) ∧
    (∀ (l₁ : List String) (k : String) (l₂ : List String),
      req.agents = l₁ ++ k :: l₂ → ¬ k ∈ l₂ →
      dictGet ((runResponses (run_agents w req)).getD []) k =
        some ((process_agent_response w.modelInit (w.gen l₁.length) k req.question).1.response)) := by
  rw [run_agents_eq_core w req h1 h2 h3]
  refine ⟨runOk_run_agents_core w req, ?_, ?_⟩
  · intro k
    rw [runResponses_run_agents_core]
    simp only [Option.getD_some]
    rw [coreResponses, isSome_dictGet_dictOfList, List.map_map]
    have hcomp : (Prod.fst ∘ fun r : AgentOutcome => (r.agent, r.response)) =
        fun r : AgentOutcome => r.agent := rfl
    rw [hcomp, coreOutcomes, fanOut_fst_map_agent]
  · intro l₁ k l₂ hsplit hk
    rw [runResponses_run_agents_core]
    simp only [Option.getD_some]
    have hzero : (0 : Nat) + l₁.length = l₁.length := Nat.zero_add _
    rw [coreResponses, coreOutcomes, hsplit, fanOut_fst_append, hzero, fanOut_cons]
    simp only [List.map_append, List.map_cons]
    rw [process_agent_response_agent w.modelInit (w.gen l₁.length) k req.question]
    apply dictGet_dictOfList_last
    rw [List.map_map]
    have hcomp : (Prod.fst ∘ fun r : AgentOutcome => (r.agent, r.response)) =
        fun r : AgentOutcome => r.agent := rfl
    rw [hcomp, fanOut_fst_map_agent]
    exact hk

/-- C5 witness: at a request duplicating "GoalClarifier" at indices 0 and
2, the key is present and carries the index-2 outcome ("r2"). -/
theorem c5_responses_complete_lww_witness :
    runOk (run_agents wOK reqDup) = true ∧
    (dictGet ((runResponses (run_agents wOK reqDup)).getD []) "GoalClarifier").isSome = true ∧
    dictGet ((runResponses (run_agents wOK reqDup)).getD []) "GoalClarifier" = some ("r2") := by
  obtain ⟨hok, hmem, hlww⟩ := c5_responses_complete_lww wOK reqDup rfl rfl (by decide)
  refine ⟨hok, (hmem ("GoalClarifier")).mpr (by decide), ?_⟩
  have h := hlww ["GoalClarifier", "SkillMap"] "GoalClarifier" [] rfl (by decide)
  exact h.trans (by decide)

/-- C8: a notification task appears in the event trace only when the
request's reminder flag is truthy and the reminder upsert succeeded, and
then it appears immediately after the successful upsert event — if the
upsert raises, no notification task is spawned. -/
theorem c8_notify_only_after_upsert (w : World) (req : AgentRequest)
    (u q : String) (e : Option String)
    (hm : Event.notifyTask u q e ∈ (run_agents w req).2) :
    truthyBool req.send_email = true ∧ w.userUpsertOk = true ∧
    ∃ (l₁ l₂ : List Event) (d : ReminderData),
      (run_agents w req).2 =
        l₁ ++ Event.userUpsert d true :: Event.notifyTask u q e :: l₂ := by
  rcases run_agents_core_or_nil w req with heq | hnil
  swap
  · rw [hnil] at hm
    simp at hm
  rw [heq] at hm ⊢
  by_cases hs : w.sessionWriteOk = false
  · rw [run_agents_core_write_fail w req hs] at hm
    obtain ⟨j, c, hjc⟩ :=
      fanOut_events_genCall w.modelInit w.gen req.question req.agents 0 _ hm
    exact Event.noConfusion hjc
  · have hs' := sessionWriteOk_true_of_not_false w hs
    by_cases he : truthyBool req.send_email = true
    · by_cases hu : w.userUpsertOk = true
      · rw [run_agents_core_reminder_ok w req hs' he hu] at hm ⊢
        simp only [List.mem_append, List.mem_cons, List.mem_singleton,
          List.not_mem_nil, or_false] at hm
        rcases hm with (hm | hm) | (hm | hm)
        · obtain ⟨j, c, hjc⟩ :=
            fanOut_events_genCall w.modelInit w.gen req.question req.agents 0 _ hm
          exact Event.noConfusion hjc
        · exact Event.noConfusion hm
        · exact Event.noConfusion hm
        · obtain ⟨hu1, hq1, he1⟩ := Event.notifyTask.inj hm
          subst hu1; subst hq1; subst he1
          exact ⟨he, hu,
            coreGenEvents w req ++ [Event.sessionWrite (coreSData w req)], [],
            coreRData req, rfl⟩
      · rw [run_agents_core_reminder_fail w req hs' he
          (bool_eq_false_of_not_true _ hu)] at hm
        simp only [List.mem_append, List.mem_cons, List.mem_singleton,
          List.not_mem_nil, or_false] at hm
        rcases hm with (hm | hm) | hm
        · obtain ⟨j, c, hjc⟩ :=
            fanOut_events_genCall w.modelInit w.gen req.question req.agents 0 _ hm
          exact Event.noConfusion hjc
        · exact Event.noConfusion hm
        · exact Event.noConfusion hm
    · rw [run_agents_core_no_reminder w req hs'
        (bool_eq_false_of_not_true _ he)] at hm
      simp only [List.mem_append, List.mem_cons, List.mem_singleton,
        List.not_mem_nil, or_false] at hm
      rcases hm with hm | hm
      · obtain ⟨j, c, hjc⟩ :=
          fanOut_events_genCall w.modelInit w.gen req.question req.agents 0 _ hm
        exact Event.noConfusion hjc
      · exact Event.noConfusion hm

/-- C8 witness: a run that does emit a notification task has the reminder
flag truthy and the upsert succeeding. -/
theorem c8_notify_only_after_upsert_witness :
    truthyBool reqBase.send_email = true ∧ wOK.userUpsertOk = true := by
  have h := c8_notify_only_after_upsert wOK reqBase ("u1") ("hi") (some ("a@b.c"))
    (by decide)
  exact ⟨h.1, h.2.1⟩

/-- C9: a request with an empty agents list is not rejected — with
dependencies initialized and storage succeeding it returns status success
with an empty responses map, makes no generation call, and writes a
session record with an empty responses map. -/
theorem c9_empty_agents (w : World) (req : AgentRequest)
    (h1 : w.dbInit = true) (h2 : w.modelInit = true)
    (hs : w.sessionWriteOk = true) (ha : req.agents = []) :
    (run_agents w req).1 = Except.ok
      { status := "success", sessionId := some w.newSessionId
      , responses := [], message := none } ∧
    (∀ (i : Nat) (c : GenCall), ¬ Event.genCall i c ∈ (run_agents w req).2) ∧
    Event.sessionWrite
      { userId := req.userId, question := req.question, agents := []
      , responses := [], isTechnical := false
      , technicalKeywords := extract_tech_keywords req.question } ∈
      (run_agents w req).2 := by
  have h3 : req.agents.length ≤ 5 := by simp [ha]
  rw [run_agents_eq_core w req h1 h2 h3]
  have hresp : coreResponses w req = [] := by
    simp [coreResponses, coreOutcomes, ha, fanOut, dictOfList]
  have hgen : coreGenEvents w req = [] := by
    simp [coreGenEvents, ha, fanOut]
  have hsd : coreSData w req =
      { userId := req.userId, question := req.question, agents := []
      , responses := [], isTechnical := false
      , technicalKeywords := extract_tech_keywords req.question } := by
    simp [coreSData, coreResponses, coreOutcomes, ha, fanOut, dictOfList]
  by_cases he : truthyBool req.send_email = true
  · by_cases hu : w.userUpsertOk = true
    · rw [run_agents_core_reminder_ok w req hs he hu]
      refine ⟨by simp [coreOkResp, hresp], ?_, ?_⟩
      · intro i c hc
        rw [hgen] at hc
        simp at hc
      · rw [hgen, hsd]
        simp
    · rw [run_agents_core_reminder_fail w req hs he
        (bool_eq_false_of_not_true _ hu)]
      refine ⟨by simp [coreOkResp, hresp], ?_, ?_⟩
      · intro i c hc
        rw [hgen] at hc
        simp at hc
      · rw [hgen, hsd]
        simp
  · rw [run_agents_core_no_reminder w req hs (bool_eq_false_of_not_true _ he)]
    refine ⟨by simp [coreOkResp, hresp], ?_, ?_⟩
    · intro i c hc
      rw [hgen] at hc
      simp at hc
    · rw [hgen, hsd]
      simp

/-- C9 witness: the empty-agents behaviour at a concrete run. -/
theorem c9_empty_agents_witness :
    (run_agents wOK reqEmpty).1 = Except.ok
      { status := "success", sessionId := some ("sid1")
      , responses := [], message := none } ∧
    ¬ Event.genCall 0 { prompt := "p", config := defaultConfig, timeout := none } ∈
      (run_agents wOK reqEmpty).2 ∧
    Event.sessionWrite
      { userId := "u1", question := "hi", agents := [], responses := []
      , isTechnical := false, technicalKeywords := [] } ∈
      (run_agents wOK reqEmpty).2 := by
  have h := c9_empty_agents wOK reqEmpty rfl rfl rfl rfl
  refine ⟨h.1, h.2.1 0 _, ?_⟩
  have h2 := h.2.2
  simp only [show extract_tech_keywords reqEmpty.question = [] by decide] at h2
  exact h2

/-- C10: if the session write succeeds but the reminder upsert raises,
the failure is absorbed — the caller receives exactly the response it
would have received had the upsert succeeded, with status success and the
real session identifier. -/
theorem c10_upsert_failure_absorbed (w : World) (req : AgentRequest)
    (h1 : w.dbInit = true) (h2 : w.modelInit = true)
    (h3 : req.agents.length ≤ 5) (hs : w.sessionWriteOk = true)
    (he : truthyBool req.send_email = true) (hu : w.userUpsertOk = false) :
    (run_agents w req).1 = (run_agents { w with userUpsertOk := true } req).1 ∧
    runStatus (run_agents w req) = some ("success") ∧
    runSessionId (run_agents w req) = some (some w.newSessionId) := by
  rw [run_agents_eq_core w req h1 h2 h3,
    run_agents_eq_core { w with userUpsertOk := true } req h1 h2 h3]
  rw [run_agents_core_reminder_fail w req hs he hu,
    run_agents_core_reminder_ok { w with userUpsertOk := true } req hs he rfl]
  exact ⟨rfl, rfl, rfl⟩

/-- C10 witness: the absorbed upsert failure at a concrete run. -/
theorem c10_upsert_failure_absorbed_witness :
    (run_agents wNoUpsert reqBase).1 = (run_agents wOK reqBase).1 ∧
    runStatus (run_agents wNoUpsert reqBase) = some ("success") := by
  have h := c10_upsert_failure_absorbed wNoUpsert reqBase rfl rfl (by decide)
    rfl (by decide) rfl
  have hw : ({ wNoUpsert with userUpsertOk := true } : World) = wOK := rfl
  rw [hw] at h
  exact ⟨h.1, h.2.1⟩

end Dhraviq
